import Mathlib

/-!
Verification development for the activity acquisition and normalization layer
of the sport_activities repository (src/garmin_client.py).

The Python module is shallowly embedded below.  Python dict payloads are
modelled as association lists of string keys to a small universe of Python
values (`PyVal`); fallible Python code is modelled with `Option`/`Except`;
Python machine floats are modelled as exact rationals (`ℚ`) with round-half-
to-even, which matches Python's `round` on the values considered here (the
binary-representation tie cases of IEEE doubles are not modelled, and no
statement below depends on them); calendar dates are modelled by their
proleptic-Gregorian ordinal (`ℤ`, the value of Python's `date.toordinal`).

Each definition carries a comment naming the Python symbol it embeds.
`datetime.fromisoformat` is Python standard library (not repository code);
it is treated as an opaque parser parameter `isoFmt : String → Option ℤ`
so that every theorem quantifies over its behaviour.
-/

namespace GarminClient

/-- Universe of Python values that the embedded code manipulates.
A key that is absent and a key bound to Python `None` are both modelled by
`Option.none` at the dictionary level: `dict.get` cannot distinguish them,
and no code path in garmin_client.py distinguishes them either. -/
inductive PyVal where
  | str (s : String)
  | int (n : ℤ)
  | float (q : ℚ)
  | bool (b : Bool)
  | dict (entries : List (String × PyVal))

/-- A Python dict payload (a raw Garmin activity record). -/
abbrev Dict := List (String × PyVal)

/-- `d.get(k)` on a Python dict. -/
def pget (d : Dict) (k : String) : Option PyVal :=
  List.lookup k d

/-- Python truthiness of a value, as used by the `or` chains in the source. -/
def pyTruthy : PyVal → Bool
  | .str s => s ≠ ""
  | .int n => n ≠ 0
  | .float q => q ≠ 0
  | .bool b => b
  | .dict entries => !entries.isEmpty

/-- Python `x or y` on optional values (`None` is falsy; the last operand is
returned as-is when every earlier one is falsy). -/
def orOpt (x y : Option PyVal) : Option PyVal :=
  match x with
  | some v => if pyTruthy v then some v else y
  | none => y

/-- ASCII whitespace recognised by Python's `str.strip` (the Unicode
whitespace Python also strips is not modelled; no claim depends on it). -/
def isPySpace (c : Char) : Bool :=
  c = ' ' ∨ c = '\t' ∨ c = '\n' ∨ c = '\r' ∨ c = '\x0b' ∨ c = '\x0c'

/-- Python `str.strip()` (ASCII whitespace). -/
def pyStrip (s : String) : String :=
  String.mk (((s.data.dropWhile isPySpace).reverse.dropWhile isPySpace).reverse)

/-- ASCII case folding for one character (Python `str.lower` restricted to
ASCII; no claim involves non-ASCII letters). -/
def pyCharLower (c : Char) : Char :=
  if 'A' ≤ c ∧ c ≤ 'Z' then Char.ofNat (c.toNat + 32) else c

/-- Python `str.lower()` (ASCII). -/
def pyLower (s : String) : String :=
  String.mk (s.data.map pyCharLower)

/-- Python `str(v)`.  The exact repr of floats and dicts is abbreviated
(Python prints e.g. `2.5` and `\x7b...\x7d`); every use in the source feeds it
into a non-emptiness-sensitive position only, and the model agrees with
Python on emptiness and on all string inputs. -/
def pyStrOf : PyVal → String
  | .str s => s
  | .int n => toString n
  | .float q => toString q
  | .bool b => if b then "True" else "False"
  | .dict _ => "\x7b...\x7d"

/-- Embeds `_get_type_key` (garmin_client.py lines 97–104). -/
def getTypeKey (activity : Dict) : Option String :=
  match pget activity "activityType" with
  | some (.dict at_) =>
      match orOpt (pget at_ "typeKey") (orOpt (pget at_ "typeName") (pget at_ "typeId")) with
      | some v => some (pyStrOf v)
      | none => none
  | some (.str s) => some s
  | _ => none

/-- Round-half-to-even on rationals (the rounding mode of Python `round`). -/
def roundHalfEven (q : ℚ) : ℤ :=
  if q - ⌊q⌋ < 1/2 then ⌊q⌋
  else if 1/2 < q - ⌊q⌋ then ⌊q⌋ + 1
  else if ⌊q⌋ % 2 = 0 then ⌊q⌋ else ⌊q⌋ + 1

/-- `round(x, 2)` on an exact rational. -/
def roundQ2 (q : ℚ) : ℚ :=
  (roundHalfEven (q * 100) : ℚ) / 100

/-- Embeds `_round2` (garmin_client.py lines 88–94): booleans are returned
unchanged (checked first, since `bool` is an `int` subtype in Python),
ints and floats become 2-decimal-rounded floats, everything else passes
through unchanged. -/
def round2 : PyVal → PyVal
  | .bool b => .bool b
  | .int n => .float (roundQ2 (n : ℚ))
  | .float q => .float (roundQ2 q)
  | v => v

/-- Embeds `_normalize_numeric_fields` (garmin_client.py lines 107–115).
Keys of a Python dict are unique, so updating every matching entry of the
association list coincides with the source's `out[k] = _round2(out.get(k))`. -/
def normalizeNumericFields (dct : Dict) (keys : List String) : Dict :=
  dct.map (fun kv => if keys.contains kv.1 then (kv.1, round2 kv.2) else kv)

/-- `_NUMERIC_COMMON_KEYS` (garmin_client.py lines 286–302). -/
def numericCommonKeys : List String :=
  ["distance", "duration", "elapsedDuration", "averageSpeed", "maxSpeed",
   "averageHR", "maxHR", "calories", "bmrCalories", "elevationGain",
   "elevationLoss", "avgPower", "activityTrainingLoad",
   "aerobicTrainingEffect", "anaerobicTrainingEffect"]

/-! ### Calendar dates and temporal extraction (`_parse_activity_date_local`) -/

/-- Gregorian leap year (as in Python's `calendar`/`datetime`). -/
def isLeapYear (y : ℕ) : Bool :=
  (y % 4 = 0 ∧ y % 100 ≠ 0) ∨ y % 400 = 0

/-- Cumulative days before month `m` (1-based) in a non-leap year. -/
def daysBeforeMonth (m : ℕ) : ℕ :=
  List.getD [0, 0, 31, 59, 90, 120, 151, 181, 212, 243, 273, 304, 334] m 0

/-- Number of days of month `m` (1-based) of year `y`. -/
def daysInMonth (y m : ℕ) : ℕ :=
  if m = 2 then (if isLeapYear y then 29 else 28)
  else List.getD [0, 31, 28, 31, 30, 31, 30, 31, 31, 30, 31, 30, 31] m 0

/-- The proleptic-Gregorian ordinal of the date `y-m-d` (the value of
Python's `date(y, m, d).toordinal()`; `0001-01-01` is ordinal 1). -/
def toOrdinal (y m d : ℕ) : ℤ :=
  365 * ((y : ℤ) - 1) + ((y : ℤ) - 1) / 4 - ((y : ℤ) - 1) / 100
    + ((y : ℤ) - 1) / 400 + (daysBeforeMonth m : ℤ)
    + (if 2 < m ∧ isLeapYear y then 1 else 0) + (d : ℤ)

/-- Decimal digit value of a character, if any. -/
def digitVal (c : Char) : Option ℕ :=
  if c.isDigit then some (c.toNat - 48) else none

/-- `%Y` of CPython `_strptime`: exactly four decimal digits. -/
def parse4 : List Char → Option (ℕ × List Char)
  | a :: b :: c :: d :: rest =>
      match digitVal a, digitVal b, digitVal c, digitVal d with
      | some a', some b', some c', some d' =>
          some (a' * 1000 + b' * 100 + c' * 10 + d', rest)
      | _, _, _, _ => none
  | _ => none

/-- A one-or-two-digit numeric field of CPython `_strptime`.  The regexes
there are ordered alternations "two digits in `[lo2, hi2]`, else one digit in
`[lo1, hi1]`"; with a non-digit literal following each field in the formats
used by the source, this direct translation is equivalent to the regex. -/
def parse2or1 (lo2 hi2 lo1 hi1 : ℕ) : List Char → Option (ℕ × List Char)
  | a :: b :: rest =>
      match digitVal a, digitVal b with
      | some x, some y =>
          let v := 10 * x + y
          if lo2 ≤ v ∧ v ≤ hi2 then some (v, rest)
          else if lo1 ≤ x ∧ x ≤ hi1 then some (x, b :: rest)
          else none
      | some x, none =>
          if lo1 ≤ x ∧ x ≤ hi1 then some (x, b :: rest) else none
      | none, _ => none
  | [a] =>
      match digitVal a with
      | some x => if lo1 ≤ x ∧ x ≤ hi1 then some (x, []) else none
      | none => none
  | [] => none

/-- A literal character of a strptime format. -/
def parseLit (c : Char) : List Char → Option (List Char)
  | x :: rest => if x = c then some rest else none
  | [] => none

/-- Date-time separator: whitespace in a strptime format matches a run of
whitespace in the input (CPython replaces `\s` by `\s+` in the pattern). -/
def sepSpace : List Char → Option (List Char)
  | x :: rest => if isPySpace x then some (rest.dropWhile isPySpace) else none
  | [] => none

/-- Date-time separator `T`: CPython compiles strptime patterns with
IGNORECASE, so the literal matches `T` or `t`. -/
def sepT : List Char → Option (List Char)
  | x :: rest => if x = 'T' ∨ x = 't' then some rest else none
  | [] => none

/-- `datetime.strptime(s, "%Y-%m-%d %H:%M:%S")` (resp. with `T`), returning
the calendar triple of `.date()`.  Field ranges follow the `_strptime`
regexes; the trailing `datetime` construction additionally requires
`year ≥ 1`, a day valid for the month, and `second ≤ 59`. -/
def strptimeYmdHms (sep : List Char → Option (List Char)) (s : String) :
    Option (ℕ × ℕ × ℕ) :=
  match parse4 s.data with
  | none => none
  | some (y, r1) =>
    match parseLit '-' r1 with
    | none => none
    | some r2 =>
      match parse2or1 1 12 1 9 r2 with
      | none => none
      | some (m, r3) =>
        match parseLit '-' r3 with
        | none => none
        | some r4 =>
          match parse2or1 1 31 1 9 r4 with
          | none => none
          | some (d, r5) =>
            match sep r5 with
            | none => none
            | some r6 =>
              match parse2or1 0 23 0 9 r6 with
              | none => none
              | some (_h, r7) =>
                match parseLit ':' r7 with
                | none => none
                | some r8 =>
                  match parse2or1 0 59 0 9 r8 with
                  | none => none
                  | some (_mi, r9) =>
                    match parseLit ':' r9 with
                    | none => none
                    | some r10 =>
                      match parse2or1 0 61 0 9 r10 with
                      | none => none
                      | some (sec, r11) =>
                        if r11 = [] ∧ 1 ≤ y ∧ d ≤ daysInMonth y m ∧ sec ≤ 59
                        then some (y, m, d) else none

/-- `datetime.strptime(s, "%Y-%m-%d").date()` as a calendar triple. -/
def strptimeYmd (s : String) : Option (ℕ × ℕ × ℕ) :=
  match parse4 s.data with
  | none => none
  | some (y, r1) =>
    match parseLit '-' r1 with
    | none => none
    | some r2 =>
      match parse2or1 1 12 1 9 r2 with
      | none => none
      | some (m, r3) =>
        match parseLit '-' r3 with
        | none => none
        | some r4 =>
          match parse2or1 1 31 1 9 r4 with
          | none => none
          | some (d, r5) =>
            if r5 = [] ∧ 1 ≤ y ∧ d ≤ daysInMonth y m then some (y, m, d)
            else none

/-- `datetime.strptime(s, "%Y-%m-%d").date().toordinal()`. -/
def strptimeDate (s : String) : Option ℤ :=
  (strptimeYmd s).map (fun t => toOrdinal t.1 t.2.1 t.2.2)

/-- Ordinal form of `strptimeYmdHms`. -/
def strptimeDTOrd (sep : List Char → Option (List Char)) (s : String) :
    Option ℤ :=
  (strptimeYmdHms sep s).map (fun t => toOrdinal t.1 t.2.1 t.2.2)

/-- Ordinal of 1970-01-01 (Python `date(1970, 1, 1).toordinal()`). -/
def epochOrdinal : ℤ := 719163

/-- Ordinal of 9999-12-31, the last date Python `datetime` can represent. -/
def maxOrdinal : ℤ := 3652059

/-- `datetime.fromtimestamp(ms / 1000.0, tz=timezone.utc).date().toordinal()`
with the `OverflowError`/`OSError`/`ValueError` cases (timestamps outside
year range 1..9999) mapped to `none`, exactly as the `except` clause of
`_parse_activity_date_local` does. -/
def epochMsToDate (ms : ℚ) : Option ℤ :=
  -- ⌊(ms / 1000) / 86400⌋ = ⌊ms / 86400000⌋, written as an integer floor
  -- division on the reduced fraction so that it evaluates by computation.
  let o : ℤ := epochOrdinal + Int.fdiv ms.num ((ms.den : ℤ) * 86400000)
  if 1 ≤ o ∧ o ≤ maxOrdinal then some o else none

/-- Python `stl[:19]` (slicing by code points). -/
def take19 (s : String) : String :=
  String.mk (s.data.take 19)

/-- Embeds `_parse_activity_date_local` (garmin_client.py lines 118–147).
`isoFmt` is the opaque model of `datetime.fromisoformat(·).date()`;
a parse failure there is `none` (the code catches `ValueError` and returns
`None`).  Note that when `startTimeLocal` is a string and every string parse
fails, the function returns `none` without consulting `beginTimestamp`.
`isinstance(ts, (int, float))` is true for Python booleans, hence the
`.bool` case of the numeric route. -/
def parseActivityDateLocal (isoFmt : String → Option ℤ) (activity : Dict) :
    Option ℤ :=
  match pget activity "startTimeLocal" with
  | some (.str stl) =>
      match strptimeDTOrd sepSpace (take19 stl) with
      | some o => some o
      | none =>
        match strptimeDTOrd sepT (take19 stl) with
        | some o => some o
        | none => isoFmt stl
  | _ =>
    match pget activity "beginTimestamp" with
    | some (.int n) => epochMsToDate (n : ℚ)
    | some (.float q) => epochMsToDate q
    | some (.bool b) => epochMsToDate (if b then 1 else 0)
    | _ => none

/-- Model of `datetime.fromisoformat` on inputs that are not ISO-8601 at all
(it raises `ValueError`, i.e. parses to nothing).  Used to instantiate the
opaque `isoFmt` parameter in concrete counterexamples whose string inputs
are not ISO-8601. -/
def isoFmtFailing : String → Option ℤ := fun _ => none

/-! ### Errors and the paginated range fetcher -/

/-- Outcome of a fresh Garmin login (`api.login()`), the four exception
types the source anticipates plus success. -/
inductive LoginOutcome where
  | ok
  | connError        -- GarminConnectConnectionError
  | authError        -- GarminConnectAuthenticationError
  | tooManyRequests  -- GarminConnectTooManyRequestsError
  | httpError        -- requests.exceptions.HTTPError
deriving DecidableEq

/-- Python exceptions surfaced by the embedded code. -/
inductive PyErr where
  | valueError (msg : String)
  | typeError (msg : String)
  | authRuntimeError (cause : LoginOutcome)  -- RuntimeError wrapping a login failure
deriving DecidableEq

/-- Boolean success test on an `Except` result. -/
def exceptIsOk {α : Type} : Except PyErr α → Bool
  | .ok _ => true
  | .error _ => false

/-- Embeds the per-record loop body of `_fetch_activities_in_range_via_paging`
(garmin_client.py lines 250–268).  Returns the accumulated records and a flag
telling whether the `return collected` (record older than the range) was
taken.  A record without an extractable date is kept unconditionally; a
record dated after the range is skipped; a record dated before the range
stops the whole fetch. -/
def processBatch (startD endD : ℤ) (isoFmt : String → Option ℤ) :
    List Dict → List Dict → List Dict × Bool
  | collected, [] => (collected, false)
  | collected, act :: rest =>
    match parseActivityDateLocal isoFmt act with
    | none => processBatch startD endD isoFmt (collected ++ [act]) rest
    | some d =>
      if endD < d then processBatch startD endD isoFmt collected rest
      else if d < startD then (collected, true)
      else processBatch startD endD isoFmt (collected ++ [act]) rest

/-- Embeds the `while True` paging loop of
`_fetch_activities_in_range_via_paging` (garmin_client.py lines 243–279).

The provider (`api.get_activities(offset, limit)`) is modelled by the list
of successive page responses `pages`; a call past the end of the list
returns an empty page.  The `offset` bookkeeping of the source selects the
next unseen slice of the provider's reverse-chronological listing, which is
exactly "the next response in sequence" under this model.  The second
component counts the provider calls performed (one per loop iteration). -/
def fetchLoop (startD endD : ℤ) (isoFmt : String → Option ℤ) (pageSize : ℤ)
    (maxPages : Option ℕ) :
    ℕ → List Dict → List (List Dict) → List Dict × ℕ
  | _, collected, [] => (collected, 1)
  | pagesDone, collected, batch :: rest =>
    if batch.isEmpty then (collected, 1)
    else
      match processBatch startD endD isoFmt collected batch with
      | (c, true) => (c, 1)
      | (c, false) =>
        if (match maxPages with
            | some mp => decide (mp ≤ pagesDone + 1)
            | none => false) then (c, 1)
        else if (batch.length : ℤ) < pageSize then (c, 1)
        else
          let r := fetchLoop startD endD isoFmt pageSize maxPages
            (pagesDone + 1) c rest
          (r.1, r.2 + 1)

/-- Embeds `_fetch_activities_in_range_via_paging` (garmin_client.py lines
211–279): the `page_size` guard, the `strptime` of the two ISO bounds, and
the paging loop.  Returns the result together with the number of provider
page calls performed. -/
def fetchActivitiesInRangeViaPaging (isoFmt : String → Option ℤ)
    (pages : List (List Dict)) (startDateIso endDateIso : String)
    (pageSize : ℤ) (maxPages : Option ℕ) :
    Except PyErr (List Dict) × ℕ :=
  if pageSize ≤ 0 ∨ 200 < pageSize then
    (.error (.valueError "page_size must be between 1 and 200"), 0)
  else
    match strptimeDate startDateIso, strptimeDate endDateIso with
    | some startD, some endD =>
        let r := fetchLoop startD endD isoFmt pageSize maxPages 0 [] pages
        (.ok r.1, r.2)
    | _, _ =>
        (.error (.valueError "time data does not match format %Y-%m-%d"), 0)

/-! ### Typed data model and classifier -/

/-- Integer value of a digit string. -/
def digitsToInt : List Char → ℤ :=
  List.foldl (fun acc c => acc * 10 + ((c.toNat : ℤ) - 48)) 0

/-- Python `int(s)` for a string: surrounding whitespace, an optional sign
and one or more decimal digits.  (Python additionally accepts underscores
between digits and non-ASCII digits; not modelled, no claim depends on it.) -/
def pyIntOfString (s : String) : Option ℤ :=
  let t := (pyStrip s).data
  let signed : ℤ × List Char :=
    match t with
    | '+' :: r => (1, r)
    | '-' :: r => (-1, r)
    | r => (1, r)
  if signed.2 ≠ [] ∧ signed.2.all Char.isDigit then
    some (signed.1 * digitsToInt signed.2)
  else none

/-- Truncation toward zero, the behaviour of Python `int(float)`. -/
def ratTrunc (q : ℚ) : ℤ :=
  if 0 ≤ q then ⌊q⌋ else -⌊-q⌋

/-- Python `int(x)` on an optional dict value: `int(None)` and `int(dict)`
raise `TypeError`; a non-numeric string raises `ValueError`; ints pass
through; bools map to 0/1; floats truncate. -/
def pyIntCoerce : Option PyVal → Except PyErr ℤ
  | none => .error (.typeError "int() argument must be a string or a real number, not NoneType")
  | some (.int n) => .ok n
  | some (.bool b) => .ok (if b then 1 else 0)
  | some (.float q) => .ok (ratTrunc q)
  | some (.str s) =>
      match pyIntOfString s with
      | some n => .ok n
      | none => .error (.valueError "invalid literal for int() with base 10")
  | some (.dict _) => .error (.typeError "int() argument must be a string or a real number, not dict")

/-- `str(_get_type_key(s) or "unknown")`: the `or` falls to `"unknown"` when
the resolved key is `None` or the empty string (both falsy), and `str` is
the identity on strings. -/
def strOrUnknown : Option String → String
  | some t => if t = "" then "unknown" else t
  | none => "unknown"

/-- Common fields of `ActivitySummaryBase` (garmin_client.py lines 305–340).
Optional fields hold whatever value the (normalized) payload had, as in the
source, where they are plain `.get` results. -/
structure ActivitySummaryBase where
  activity_id : ℤ
  type_key : String
  activity_name : Option PyVal
  begin_timestamp : Option PyVal
  end_time_gmt : Option PyVal
  distance : Option PyVal
  duration : Option PyVal
  elapsed_duration : Option PyVal
  average_speed : Option PyVal
  max_speed : Option PyVal
  average_hr : Option PyVal
  max_hr : Option PyVal
  calories : Option PyVal
  bmr_calories : Option PyVal
  elevation_gain : Option PyVal
  elevation_loss : Option PyVal
  avg_power : Option PyVal
  activity_training_load : Option PyVal
  aerobic_training_effect : Option PyVal
  anaerobic_training_effect : Option PyVal
  raw : Dict

/-- Sport-specific fields of `CyclingActivitySummary` (lines 411–439). -/
structure CyclingExtra where
  average_biking_cadence_rpm : Option PyVal
  end_latitude : Option PyVal
  end_longitude : Option PyVal
  exclude_from_power_curve_reports : Option PyVal

/-- Sport-specific fields of `RunningActivitySummary` (lines 442–477). -/
structure RunningExtra where
  average_running_cadence_spm : Option PyVal
  avg_grade_adjusted_speed : Option PyVal
  avg_ground_contact_time : Option PyVal
  avg_stride_length : Option PyVal
  avg_vertical_oscillation : Option PyVal
  avg_vertical_ratio : Option PyVal

/-- Sport-specific fields of `SwimmingActivitySummary` (lines 480–515). -/
structure SwimmingExtra where
  active_lengths : Option PyVal
  average_swim_cadence_spm : Option PyVal
  average_swolf : Option PyVal
  avg_stroke_distance : Option PyVal
  avg_strokes : Option PyVal
  fastest_split_100 : Option PyVal

/-- The closed family of typed summaries: the four dataclasses of the
source, tagged by which class `parse_activity_summary` instantiated. -/
inductive ActivitySummary where
  | cycling (base : ActivitySummaryBase) (extra : CyclingExtra)
  | running (base : ActivitySummaryBase) (extra : RunningExtra)
  | swimming (base : ActivitySummaryBase) (extra : SwimmingExtra)
  | generic (base : ActivitySummaryBase)

/-- The class tag of a typed summary. -/
inductive Variant where
  | cycling
  | running
  | swimming
  | generic
deriving DecidableEq

/-- Variant tag of a summary. -/
def variantOf : ActivitySummary → Variant
  | .cycling _ _ => .cycling
  | .running _ _ => .running
  | .swimming _ _ => .swimming
  | .generic _ => .generic

/-- Common-field record of a summary. -/
def baseOf : ActivitySummary → ActivitySummaryBase
  | .cycling b _ => b
  | .running b _ => b
  | .swimming b _ => b
  | .generic b => b

/-- Embeds `ActivitySummaryBase.from_summary` (garmin_client.py lines
364–398): normalize the common numeric keys, coerce `activityId` with
`int(...)` (the only failure point), resolve `type_key` with the
`or "unknown"` default, and copy the remaining fields verbatim. -/
def baseFromSummary (summary : Dict) : Except PyErr ActivitySummaryBase :=
  let s := normalizeNumericFields summary numericCommonKeys
  match pyIntCoerce (pget s "activityId") with
  | .error e => .error e
  | .ok aid =>
    .ok
      { activity_id := aid
        type_key := strOrUnknown (getTypeKey s)
        activity_name := pget s "activityName"
        begin_timestamp := pget s "beginTimestamp"
        end_time_gmt := pget s "endTimeGMT"
        distance := pget s "distance"
        duration := pget s "duration"
        elapsed_duration := pget s "elapsedDuration"
        average_speed := pget s "averageSpeed"
        max_speed := pget s "maxSpeed"
        average_hr := pget s "averageHR"
        max_hr := pget s "maxHR"
        calories := pget s "calories"
        bmr_calories := pget s "bmrCalories"
        elevation_gain := pget s "elevationGain"
        elevation_loss := pget s "elevationLoss"
        avg_power := pget s "avgPower"
        activity_training_load := pget s "activityTrainingLoad"
        aerobic_training_effect := pget s "aerobicTrainingEffect"
        anaerobic_training_effect := pget s "anaerobicTrainingEffect"
        raw := s }

/-- Cycling-specific numeric keys (lines 422–430). -/
def cyclingNumericKeys : List String :=
  numericCommonKeys ++
    ["averageBikingCadenceInRevPerMinute", "endLatitude", "endLongitude"]

/-- Running-specific numeric keys (lines 455–466). -/
def runningNumericKeys : List String :=
  numericCommonKeys ++
    ["averageRunningCadenceInStepsPerMinute", "avgGradeAdjustedSpeed",
     "avgGroundContactTime", "avgStrideLength", "avgVerticalOscillation",
     "avgVerticalRatio"]

/-- Swimming-specific numeric keys (lines 493–504). -/
def swimmingNumericKeys : List String :=
  numericCommonKeys ++
    ["activeLengths", "averageSwimCadenceInStrokesPerMinute", "averageSwolf",
     "avgStrokeDistance", "avgStrokes", "fastestSplit_100"]

/-- Embeds `CyclingActivitySummary.from_summary` (lines 420–439): the base
fields are built from the subclass-normalized dict (via
`_base_kwargs_without_raw`), and `raw` is the subclass-normalized dict. -/
def cyclingFromSummary (summary : Dict) : Except PyErr ActivitySummary :=
  let s := normalizeNumericFields summary cyclingNumericKeys
  match baseFromSummary s with
  | .error e => .error e
  | .ok base =>
    .ok (.cycling { base with raw := s }
      { average_biking_cadence_rpm := pget s "averageBikingCadenceInRevPerMinute"
        end_latitude := pget s "endLatitude"
        end_longitude := pget s "endLongitude"
        exclude_from_power_curve_reports := pget s "excludeFromPowerCurveReports" })

/-- Embeds `RunningActivitySummary.from_summary` (lines 453–477). -/
def runningFromSummary (summary : Dict) : Except PyErr ActivitySummary :=
  let s := normalizeNumericFields summary runningNumericKeys
  match baseFromSummary s with
  | .error e => .error e
  | .ok base =>
    .ok (.running { base with raw := s }
      { average_running_cadence_spm := pget s "averageRunningCadenceInStepsPerMinute"
        avg_grade_adjusted_speed := pget s "avgGradeAdjustedSpeed"
        avg_ground_contact_time := pget s "avgGroundContactTime"
        avg_stride_length := pget s "avgStrideLength"
        avg_vertical_oscillation := pget s "avgVerticalOscillation"
        avg_vertical_ratio := pget s "avgVerticalRatio" })

/-- Embeds `SwimmingActivitySummary.from_summary` (lines 491–515). -/
def swimmingFromSummary (summary : Dict) : Except PyErr ActivitySummary :=
  let s := normalizeNumericFields summary swimmingNumericKeys
  match baseFromSummary s with
  | .error e => .error e
  | .ok base =>
    .ok (.swimming { base with raw := s }
      { active_lengths := pget s "activeLengths"
        average_swim_cadence_spm := pget s "averageSwimCadenceInStrokesPerMinute"
        average_swolf := pget s "averageSwolf"
        avg_stroke_distance := pget s "avgStrokeDistance"
        avg_strokes := pget s "avgStrokes"
        fastest_split_100 := pget s "fastestSplit_100" })

/-- Embeds `_TYPE_MAP` (lines 527–536) as the class-selection function
underlying `dict.get(type_key, GenericActivitySummary)`. -/
def typeMap (k : String) : Variant :=
  if k = "road_biking" ∨ k = "virtual_ride" ∨ k = "cycling" ∨ k = "biking"
  then .cycling
  else if k = "running" then .running
  else if k = "lap_swimming" ∨ k = "swimming" ∨ k = "open_water_swimming"
  then .swimming
  else .generic

/-- Embeds `parse_activity_summary` (lines 539–543): lowercase/trimmed key
for class dispatch only, then the selected class's `from_summary`. -/
def parseActivitySummary (summary : Dict) : Except PyErr ActivitySummary :=
  match typeMap (pyLower (pyStrip (strOrUnknown (getTypeKey summary)))) with
  | .cycling => cyclingFromSummary summary
  | .running => runningFromSummary summary
  | .swimming => swimmingFromSummary summary
  | .generic =>
      match baseFromSummary summary with
      | .error e => .error e
      | .ok base => .ok (.generic base)

/-- Embeds the list comprehension
`[parse_activity_summary(a) for a in raw]` of `get_activities_in_range`
(line 584): records are classified in order and the first exception aborts
the whole comprehension. -/
def classifyAll : List Dict → Except PyErr (List ActivitySummary)
  | [] => .ok []
  | a :: rest =>
    match parseActivitySummary a with
    | .error e => .error e
    | .ok v =>
      match classifyAll rest with
      | .error e => .error e
      | .ok vs => .ok (v :: vs)

/-! ### Type filter and the public range operation -/

/-- Python `x in keys` over a collection of strings. -/
def strMem (x : String) : List String → Bool
  | [] => false
  | y :: rest => if x = y then true else strMem x rest

/-- Embeds `_filter_activities_by_type` (garmin_client.py lines 625–636).
The allowed set is the trimmed/lowercased image of the caller's keys; a
record's filter key is `(_get_type_key(a) or "")` trimmed/lowercased (note
the empty-string default here, unlike the classifier's `"unknown"`).
The source's accumulation loop is a filter; `set` deduplication only
affects multiplicity, never the membership test `key in allowed`. -/
def filterActivitiesByType (activities : List Dict)
    (allowedTypes : List String) : List Dict :=
  let allowed := allowedTypes.map (fun t => pyLower (pyStrip t))
  activities.filter
    (fun a => strMem (pyLower (pyStrip ((getTypeKey a).getD ""))) allowed)

/-- The `activity_type` argument of `get_activities_in_range`: a plain
string or an iterable of strings. -/
inductive ActivityTypeArg where
  | astr (s : String)
  | aset (elems : List String)

/-- Embeds the allowed-set construction of `get_activities_in_range`
(lines 576–582): a plain string becomes the singleton of its
trimmed/lowercased form (the `isinstance(activity_type, str)` branch);
an iterable is element-wise trimmed/lowercased (`set(...)` deduplication
only affects multiplicity, never membership, and the set is used solely
for membership tests downstream). -/
def allowedSetOf : ActivityTypeArg → List String
  | .astr s => [pyLower (pyStrip s)]
  | .aset l => l.map (fun t => pyLower (pyStrip t))

/-- What the non-string branch would produce if a plain string were handed
to `set(...)`: Python iterates a string by characters.  This is the foil
that the `isinstance` guard of the source avoids; it exists only to state
that the source does not behave this way. -/
def charExpansion (s : String) : List String :=
  s.data.map (fun c => pyLower (pyStrip (String.mk [c])))

/-! ### Session/Auth manager (`init_api`) -/

/-- Outcome of the cached-session restore attempt
(`session_path.read_text`, `json.loads`, `api.login(saved_session)`).
The failure modes are the three exception classes the source anticipates:
`OSError` (I/O), `ValueError` (JSON parse), and
`GarminConnectAuthenticationError` (provider-rejected session). -/
inductive RestoreOutcome where
  | ok
  | ioError
  | parseError
  | authRejected
deriving DecidableEq

/-- Outcome of persisting the fresh session
(`getattr(api, "session_data")`, `json.dumps`, `write_text`): the three
exception classes the source anticipates, all swallowed. -/
inductive PersistOutcome where
  | ok
  | osError
  | attrError
  | typeError
deriving DecidableEq

/-- Environment of one `init_api` run: the session-file configuration and
the outcome each external step would have if attempted. -/
structure AuthEnv where
  sessionFileConfigured : Bool  -- auth.session_file is not None
  sessionFileExists : Bool      -- session_path.exists()
  restore : RestoreOutcome
  login : LoginOutcome
  persist : PersistOutcome

/-- How the returned API handle was obtained. -/
inductive Handle where
  | restored
  | fresh
deriving DecidableEq

/-- Network interactions observable from outside. -/
inductive NetEvent where
  | auth  -- a login attempt against the provider
  | page  -- one api.get_activities(offset, limit) call
deriving DecidableEq

/-- Embeds the fresh-login tail of `init_api` (garmin_client.py lines
183–203): a failing `api.login()` is wrapped in a `RuntimeError`; on
success the session persist is attempted when a session file is configured
and every anticipated persist failure is swallowed (`except ...: pass`). -/
def freshLogin (env : AuthEnv) : Except PyErr Handle × List NetEvent :=
  match env.login with
  | .ok =>
      if env.sessionFileConfigured then
        match env.persist with
        | .ok => (.ok .fresh, [.auth])
        | .osError => (.ok .fresh, [.auth])
        | .attrError => (.ok .fresh, [.auth])
        | .typeError => (.ok .fresh, [.auth])
      else (.ok .fresh, [.auth])
  | .connError => (.error (.authRuntimeError .connError), [.auth])
  | .authError => (.error (.authRuntimeError .authError), [.auth])
  | .tooManyRequests => (.error (.authRuntimeError .tooManyRequests), [.auth])
  | .httpError => (.error (.authRuntimeError .httpError), [.auth])

/-- Embeds `init_api` (garmin_client.py lines 164–203).  When a session
file is configured and exists, the restore is attempted; every anticipated
restore failure falls through to fresh login (`except ...: pass` around the
whole restore block).  The event trace records login attempts: an I/O or
parse failure happens before any network use, while a provider-rejected
session means a login attempt was made. -/
def initApi (env : AuthEnv) : Except PyErr Handle × List NetEvent :=
  if env.sessionFileConfigured && env.sessionFileExists then
    match env.restore with
    | .ok => (.ok .restored, [.auth])
    | .ioError => freshLogin env
    | .parseError => freshLogin env
    | .authRejected =>
        let r := freshLogin env
        (r.1, .auth :: r.2)
  else freshLogin env

/-! ### The public range operation (`get_activities_in_range`) -/

/-- The `DateLike` union of the source: `str`, `date` or `datetime`
(`_to_iso` checks `datetime` first since it subclasses `date`; a
`datetime`'s time-of-day is dropped by `.date()`, so only the calendar
triple is modelled). -/
inductive DateLike where
  | dstr (s : String)
  | ddate (y m d : ℕ)
  | ddatetime (y m d : ℕ)

/-- Zero-padded decimal rendering with at least `w` digits, as Python's
`date.isoformat` produces. -/
def padNum (w n : ℕ) : String :=
  let s := toString n
  String.mk (List.replicate (w - s.length) '0') ++ s

/-- Python `date(y, m, d).isoformat()`. -/
def isoFormat (y m d : ℕ) : String :=
  padNum 4 y ++ "-" ++ padNum 2 m ++ "-" ++ padNum 2 d

/-- Embeds `_to_iso` (garmin_client.py lines 64–77): dates and datetimes
are serialized directly; strings are parsed with `%Y-%m-%d` and
re-serialized (which canonicalizes e.g. `2025-1-2`), raising `ValueError`
on a mismatch. -/
def toIso : DateLike → Except PyErr String
  | .ddatetime y m d => .ok (isoFormat y m d)
  | .ddate y m d => .ok (isoFormat y m d)
  | .dstr s =>
      match strptimeYmd s with
      | some (y, m, d) => .ok (isoFormat y m d)
      | none => .error (.valueError "Invalid date string. Expected format YYYY-MM-DD.")

/-- Lexicographic code-point order on character lists. -/
def charListLt : List Char → List Char → Bool
  | [], [] => false
  | [], _ :: _ => true
  | _ :: _, [] => false
  | a :: as, b :: bs =>
    if a.toNat < b.toNat then true
    else if b.toNat < a.toNat then false
    else charListLt as bs

/-- Python `a < b` on strings: lexicographic by code point. -/
def pyStrLt (a b : String) : Bool :=
  charListLt a.data b.data

/-- Embeds `_validate_range` (garmin_client.py lines 80–85): both bounds
are ISO-serialized and compared as strings (`if s > e`), which on
canonical ISO strings is the date order. -/
def validateRange (startDate endDate : DateLike) :
    Except PyErr (String × String) :=
  match toIso startDate with
  | .error e => .error e
  | .ok s =>
    match toIso endDate with
    | .error e => .error e
    | .ok e =>
      if pyStrLt e s then
        .error (.valueError "Invalid range: start_date is after end_date.")
      else .ok (s, e)

/-- Embeds `get_activities_in_range` (garmin_client.py lines 551–584):
validate the range, authenticate, page through the provider, optionally
filter by sport type, and classify every surviving raw record.  The second
component is the trace of network interactions in order. -/
def getActivitiesInRange (env : AuthEnv) (isoFmt : String → Option ℤ)
    (pages : List (List Dict)) (startDate endDate : DateLike)
    (activityType : Option ActivityTypeArg) (pageSize : ℤ)
    (maxPages : Option ℕ) :
    Except PyErr (List ActivitySummary) × List NetEvent :=
  match validateRange startDate endDate with
  | .error e => (.error e, [])
  | .ok (s, e) =>
    match initApi env with
    | (.error er, evs) => (.error er, evs)
    | (.ok _, evs) =>
      match fetchActivitiesInRangeViaPaging isoFmt pages s e pageSize maxPages with
      | (.error er, n) => (.error er, evs ++ List.replicate n .page)
      | (.ok raw, n) =>
        let raw2 :=
          match activityType with
          | none => raw
          | some at_ => filterActivitiesByType raw (allowedSetOf at_)
        match classifyAll raw2 with
        | .error er => (.error er, evs ++ List.replicate n .page)
        | .ok out => (.ok out, evs ++ List.replicate n .page)

/-! ### Spec-side formulations (for refinement claims) and analysis helpers -/

/-- The record's date is extractable only with a value inside the requested
range (the invariant claimed for the fetcher's output). -/
def InRange (startD endD : ℤ) (isoFmt : String → Option ℤ) (a : Dict) : Prop :=
  ∀ d, parseActivityDateLocal isoFmt a = some d → startD ≤ d ∧ d ≤ endD

/-- First defined value of a list of attempts. -/
def firstSome : List (Option ℤ) → Option ℤ
  | [] => none
  | some v :: _ => some v
  | none :: rest => firstSome rest

/-- The numeric (epoch-milliseconds, UTC) route of local-date extraction. -/
def localDateNumericRoute (activity : Dict) : Option ℤ :=
  match pget activity "beginTimestamp" with
  | some (.int n) => epochMsToDate (n : ℚ)
  | some (.float q) => epochMsToDate q
  | some (.bool b) => epochMsToDate (if b then 1 else 0)
  | _ => none

/-- Local-date extraction exactly as claim C4 states it: string field first
(two fixed patterns on the first 19 characters, then general ISO-8601
parsing), and "on total failure of the string route" a fallback to the
numeric epoch field.  Written from the claim's words, to be compared with
the embedding `parseActivityDateLocal`; the comparison fails (see the
counterexample), because the source returns `None` when the string route
fails. -/
def localDateClaimC4 (isoFmt : String → Option ℤ) (activity : Dict) :
    Option ℤ :=
  match pget activity "startTimeLocal" with
  | some (.str stl) =>
      match firstSome [strptimeDTOrd sepSpace (take19 stl),
                       strptimeDTOrd sepT (take19 stl), isoFmt stl] with
      | some o => some o
      | none => localDateNumericRoute activity
  | _ => localDateNumericRoute activity

/-- Local-date extraction as the amended claim states it: the string route
(two fixed patterns on the first 19 characters, then general ISO-8601
parsing) applies whenever the field holds a string, and its total failure
yields absent; the numeric epoch route applies only when the string field
is absent or not a string. -/
def localDateSpecAmended (isoFmt : String → Option ℤ) (activity : Dict) :
    Option ℤ :=
  match pget activity "startTimeLocal" with
  | some (.str stl) =>
      firstSome [strptimeDTOrd sepSpace (take19 stl),
                 strptimeDTOrd sepT (take19 stl), isoFmt stl]
  | _ => localDateNumericRoute activity

/-- The record's resolved sport key in the spec's sense (§4.4 and glossary):
nested/flat type resolution, `"unknown"` default, trimmed and lowercased —
the key the classifier dispatches on. -/
def specResolvedSportKey (a : Dict) : String :=
  pyLower (pyStrip (strOrUnknown (getTypeKey a)))

/-- Variant tag of a classification result, if it succeeded. -/
def resultVariant : Except PyErr ActivitySummary → Option Variant
  | .ok v => some (variantOf v)
  | .error _ => none

/-- `type_key` of a classification result, if it succeeded. -/
def resultTypeKey : Except PyErr ActivitySummary → Option String
  | .ok v => some (baseOf v).type_key
  | .error _ => none

/-- The error of a result, if any. -/
def errCause {α : Type} : Except PyErr α → Option PyErr
  | .ok _ => none
  | .error e => some e

/-- Whether `init_api` obtains its handle from the cached session. -/
def restoreSucceeds (env : AuthEnv) : Bool :=
  env.sessionFileConfigured && env.sessionFileExists &&
    (match env.restore with | .ok => true | _ => false)

/-! ### Concrete fixtures for witnesses and counterexamples -/

/-- A raw record dated 2025-06-15 (ordinal 739417). -/
def recJun15 : Dict :=
  [("activityId", .int 100), ("startTimeLocal", .str "2025-06-15 07:00:00")]

/-- A raw record dated 2025-05-20 (ordinal 739391). -/
def recMay20 : Dict :=
  [("activityId", .int 101), ("startTimeLocal", .str "2025-05-20 06:00:00")]

/-- A raw record whose `activityType` is the bare string `"CYCLING"`. -/
def recCyc : Dict := [("activityId", .int 1), ("activityType", .str "CYCLING")]

/-- A raw record lacking `activityId` entirely. -/
def recNoId : Dict := [("activityName", .str "morning ride")]

/-- A raw record with a well-formed `activityId` and nothing else. -/
def recGoodId : Dict := [("activityId", .int 2)]

/-- A raw record with no resolvable activity type. -/
def recNoType : Dict := [("activityId", .int 7)]

/-- A raw record with flat string type `"Running"`. -/
def recRunning : Dict := [("activityType", .str "Running")]

/-- A raw record whose `startTimeLocal` string is unparseable while a
perfectly good epoch timestamp is present. -/
def recC4 : Dict :=
  [("startTimeLocal", .str "garbage"), ("beginTimestamp", .int 0)]

/-- An auth environment with no session file and all steps succeeding. -/
def envOk : AuthEnv :=
  { sessionFileConfigured := false, sessionFileExists := false,
    restore := .ok, login := .ok, persist := .ok }

/-- An auth environment whose fresh login hits a connection error. -/
def envLoginConn : AuthEnv :=
  { sessionFileConfigured := false, sessionFileExists := false,
    restore := .ok, login := .connError, persist := .ok }

/-! ## Theorems -/

/-- A rational that is an integer rounds to itself. -/
theorem roundHalfEven_intCast (n : ℤ) : roundHalfEven (n : ℚ) = n := by
  unfold roundHalfEven
  rw [Int.floor_intCast, sub_self]
  norm_num

/-- Rounding to two decimals is idempotent on rationals. -/
theorem roundQ2_idem (q : ℚ) : roundQ2 (roundQ2 q) = roundQ2 q := by
  unfold roundQ2
  rw [div_mul_cancel₀ _ (by norm_num : (100 : ℚ) ≠ 0), roundHalfEven_intCast]

/-- C8: applying the 2-decimal rounding function twice equals applying it
once; booleans pass through unchanged, and non-numeric values (strings,
dicts) are returned as-is. -/
theorem round2_idempotent_and_passthrough :
    (∀ v, round2 (round2 v) = round2 v)
    ∧ (∀ b, round2 (.bool b) = .bool b)
    ∧ (∀ s, round2 (.str s) = .str s)
    ∧ (∀ entries, round2 (.dict entries) = .dict entries) := by
  refine ⟨?_, fun _ => rfl, fun _ => rfl, fun _ => rfl⟩
  intro v
  cases v with
  | str s => rfl
  | bool b => rfl
  | dict entries => rfl
  | int n => simp [round2, roundQ2_idem]
  | float q => simp [round2, roundQ2_idem]

/-- The resolved `type_key` with the `or "unknown"` default is never the
empty string. -/
theorem strOrUnknown_ne_empty (k : Option String) : strOrUnknown k ≠ "" := by
  cases k with
  | none => simp [strOrUnknown]
  | some t =>
      by_cases h : t = "" <;> simp [strOrUnknown, h]

/-- Whenever `ActivitySummaryBase.from_summary` succeeds, the stored
`type_key` is non-empty. -/
theorem baseFromSummary_ok_type_key (d : Dict) (b : ActivitySummaryBase)
    (h : baseFromSummary d = .ok b) : b.type_key ≠ "" := by
  simp only [baseFromSummary] at h
  split at h
  · exact absurd h (by simp)
  · injection h with h2
    subst h2
    exact strOrUnknown_ne_empty _

/-- The cycling builder preserves type-key non-emptiness. -/
theorem cyclingFromSummary_type_key (s : Dict) :
    resultTypeKey (cyclingFromSummary s) ≠ some "" := by
  simp only [cyclingFromSummary]
  cases hb : baseFromSummary (normalizeNumericFields s cyclingNumericKeys) with
  | error e => simp [resultTypeKey]
  | ok b =>
      have hk := baseFromSummary_ok_type_key _ _ hb
      simpa [resultTypeKey, baseOf] using hk

/-- The running builder preserves type-key non-emptiness. -/
theorem runningFromSummary_type_key (s : Dict) :
    resultTypeKey (runningFromSummary s) ≠ some "" := by
  simp only [runningFromSummary]
  cases hb : baseFromSummary (normalizeNumericFields s runningNumericKeys) with
  | error e => simp [resultTypeKey]
  | ok b =>
      have hk := baseFromSummary_ok_type_key _ _ hb
      simpa [resultTypeKey, baseOf] using hk

/-- The swimming builder preserves type-key non-emptiness. -/
theorem swimmingFromSummary_type_key (s : Dict) :
    resultTypeKey (swimmingFromSummary s) ≠ some "" := by
  simp only [swimmingFromSummary]
  cases hb : baseFromSummary (normalizeNumericFields s swimmingNumericKeys) with
  | error e => simp [resultTypeKey]
  | ok b =>
      have hk := baseFromSummary_ok_type_key _ _ hb
      simpa [resultTypeKey, baseOf] using hk

/-- C2 (amended): every classified summary carries a non-empty `type_key`,
but the stored key keeps the payload's original case (lowercasing happens
only for variant dispatch): the record with bare string type `"CYCLING"`
classifies as a Cycling variant whose `type_key` is `"CYCLING"`. -/
theorem parse_summary_type_key_amended :
    (∀ s : Dict, resultTypeKey (parseActivitySummary s) ≠ some "")
    ∧ resultVariant (parseActivitySummary recCyc) = some Variant.cycling
    ∧ resultTypeKey (parseActivitySummary recCyc) = some "CYCLING" := by
  refine ⟨?_, rfl, rfl⟩
  intro s
  unfold parseActivitySummary
  cases htm : typeMap (pyLower (pyStrip (strOrUnknown (getTypeKey s)))) with
  | cycling => exact cyclingFromSummary_type_key s
  | running => exact runningFromSummary_type_key s
  | swimming => exact swimmingFromSummary_type_key s
  | generic =>
      cases hb : baseFromSummary s with
      | error e => simp [resultTypeKey]
      | ok b =>
          have hk := baseFromSummary_ok_type_key _ _ hb
          simpa [resultTypeKey, baseOf] using hk

/-- C2 witness: the non-emptiness part applied at the concrete `"CYCLING"`
record. -/
theorem parse_summary_type_key_amended_witness :
    resultTypeKey (parseActivitySummary recCyc) ≠ some "" :=
  parse_summary_type_key_amended.1 recCyc

/-- C2 counterexample: the claim says the `"CYCLING"` record yields
`type_key = "cycling"`; the code yields a Cycling variant whose stored
`type_key` is `"CYCLING"`, which differs from `"cycling"`. -/
theorem parse_summary_type_key_case_cex :
    resultVariant (parseActivitySummary recCyc) = some Variant.cycling
    ∧ resultTypeKey (parseActivitySummary recCyc) = some "CYCLING"
    ∧ ("CYCLING" : String) ≠ "cycling" :=
  ⟨rfl, rfl, by decide⟩

/-- Membership characterization of the Python `in` helper. -/
theorem strMem_iff (x : String) (l : List String) :
    strMem x l = true ↔ x ∈ l := by
  induction l with
  | nil => simp [strMem]
  | cons y t ih => by_cases h : x = y <;> simp [strMem, h, ih]

/-- C9 (amended): the type filter returns exactly the records whose filter
key — the flat resolution with empty-string default, trimmed and
lowercased — equals some allowed key trimmed and lowercased; the empty
record list yields the empty list.  (A record with no resolvable type gets
filter key `""`, so it is excluded even when `"unknown"` is allowed; see
the counterexample.) -/
theorem filter_by_type_membership (acts : List Dict) (allowed : List String) :
    filterActivitiesByType [] allowed = []
    ∧ ∀ r, (r ∈ filterActivitiesByType acts allowed ↔
        r ∈ acts ∧ ∃ t ∈ allowed,
          pyLower (pyStrip ((getTypeKey r).getD "")) = pyLower (pyStrip t)) := by
  constructor
  · rfl
  · intro r
    simp only [filterActivitiesByType, List.mem_filter, strMem_iff,
      List.mem_map]
    constructor
    · rintro ⟨hr, t, ht, heq⟩
      exact ⟨hr, t, ht, heq.symm⟩
    · rintro ⟨hr, t, ht, heq⟩
      exact ⟨hr, t, ht, heq.symm⟩

/-- C9 witness: a record with flat type `"Running"` passes the filter for
allowed key `"Running"` (case-insensitive, trimmed match). -/
theorem filter_by_type_membership_witness :
    recRunning ∈ filterActivitiesByType [recRunning] ["Running"] :=
  ((filter_by_type_membership [recRunning] ["Running"]).2 recRunning).mpr
    ⟨by simp, "Running", by simp, rfl⟩

/-- C9 counterexample: a record with no resolvable type has resolved sport
key `"unknown"` in the spec's sense, yet explicitly allowing `"unknown"`
does not return it — the filter resolves the missing key to `""`. -/
theorem filter_unknown_not_matched_cex :
    filterActivitiesByType [recNoType] ["unknown"] = []
    ∧ specResolvedSportKey recNoType = "unknown" :=
  ⟨rfl, rfl⟩

/-- C10: a plain string `activity_type` becomes the singleton filter set of
its trimmed, lowercased form; it is never expanded into the set of its
individual characters (which iterating the string would produce). -/
theorem activity_type_string_singleton (s : String) :
    allowedSetOf (.astr s) = [pyLower (pyStrip s)]
    ∧ allowedSetOf (.astr "running") = ["running"]
    ∧ charExpansion "running" = ["r", "u", "n", "n", "i", "n", "g"]
    ∧ (["running"] : List String) ≠ ["r", "u", "n", "n", "i", "n", "g"] :=
  ⟨rfl, rfl, rfl, by decide⟩

/-- C10 witness: the singleton construction at a concrete mixed-case,
padded string. -/
theorem activity_type_string_singleton_witness :
    allowedSetOf (.astr " Trail_Running ") = ["trail_running"] :=
  ((activity_type_string_singleton " Trail_Running ").1).trans (by rfl)

/-- Processing one page preserves the in-range invariant of the
accumulated records. -/
theorem processBatch_inv (sD eD : ℤ) (isoFmt : String → Option ℤ)
    (batch : List Dict) :
    ∀ collected, (∀ x ∈ collected, InRange sD eD isoFmt x) →
    ∀ x ∈ (processBatch sD eD isoFmt collected batch).1,
      InRange sD eD isoFmt x := by
  induction batch with
  | nil =>
      intro c hc x hx
      exact hc x (by simpa [processBatch] using hx)
  | cons act rest ih =>
      intro c hc x hx
      simp only [processBatch] at hx
      cases hpd : parseActivityDateLocal isoFmt act with
      | none =>
          simp only [hpd] at hx
          refine ih (c ++ [act]) ?_ x hx
          intro y hy
          rcases List.mem_append.mp hy with h | h
          · exact hc y h
          · have hya : y = act := List.mem_singleton.mp h
            subst hya
            intro d hdy
            rw [hpd] at hdy
            exact absurd hdy (by simp)
      | some d0 =>
          simp only [hpd] at hx
          by_cases h1 : eD < d0
          · rw [if_pos h1] at hx
            exact ih c hc x hx
          · rw [if_neg h1] at hx
            by_cases h2 : d0 < sD
            · rw [if_pos h2] at hx
              exact hc x (by simpa using hx)
            · rw [if_neg h2] at hx
              refine ih (c ++ [act]) ?_ x hx
              intro y hy
              rcases List.mem_append.mp hy with h | h
              · exact hc y h
              · have hya : y = act := List.mem_singleton.mp h
                subst hya
                intro d hdy
                rw [hpd] at hdy
                injection hdy with hdd
                subst hdd
                exact ⟨le_of_not_lt h2, le_of_not_lt h1⟩

/-- The paging loop preserves the in-range invariant of the accumulated
records. -/
theorem fetchLoop_inv (sD eD : ℤ) (isoFmt : String → Option ℤ) (ps : ℤ)
    (mp : Option ℕ) (pages : List (List Dict)) :
    ∀ pagesDone collected,
    (∀ x ∈ collected, InRange sD eD isoFmt x) →
    ∀ x ∈ (fetchLoop sD eD isoFmt ps mp pagesDone collected pages).1,
      InRange sD eD isoFmt x := by
  induction pages with
  | nil =>
      intro pd c hc x hx
      exact hc x (by simpa [fetchLoop] using hx)
  | cons batch rest ih =>
      intro pd c hc x hx
      simp only [fetchLoop] at hx
      by_cases hb : batch.isEmpty
      · rw [if_pos hb] at hx
        exact hc x (by simpa using hx)
      · rw [if_neg hb] at hx
        rcases hpb : processBatch sD eD isoFmt c batch with ⟨c2, stop⟩
        rw [hpb] at hx
        have hc2 : ∀ y ∈ c2, InRange sD eD isoFmt y := by
          intro y hy
          refine processBatch_inv sD eD isoFmt batch c hc y ?_
          rw [hpb]
          exact hy
        cases stop with
        | true => exact hc2 x (by simpa using hx)
        | false =>
            dsimp only at hx
            cases hmb : (match mp with
              | some m => decide (m ≤ pd + 1)
              | none => false) with
            | true =>
                simp only [hmb, eq_self_iff_true, if_true] at hx
                exact hc2 x (by simpa using hx)
            | false =>
                simp only [hmb, Bool.false_eq_true, if_false] at hx
                by_cases hlen : (batch.length : ℤ) < ps
                · rw [if_pos hlen] at hx
                  exact hc2 x (by simpa using hx)
                · rw [if_neg hlen] at hx
                  exact ih (pd + 1) c2 hc2 x (by simpa using hx)

/-- C1: for every valid range and every page sequence, the fetcher's result
contains no record whose extracted local date lies strictly outside
`[startDate, endDate]`; records with unextractable dates are unconstrained
(their membership never reaches this statement's hypothesis). -/
theorem fetchRange_result_within_range
    (isoFmt : String → Option ℤ) (pages : List (List Dict))
    (startIso endIso : String) (pageSize : ℤ) (maxPages : Option ℕ)
    (startD endD : ℤ)
    (hs : strptimeDate startIso = some startD)
    (he : strptimeDate endIso = some endD)
    (hrange : startD ≤ endD)
    (res : List Dict)
    (hres : (fetchActivitiesInRangeViaPaging isoFmt pages startIso endIso
        pageSize maxPages).1 = .ok res)
    (a : Dict) (ha : a ∈ res) (d : ℤ)
    (hd : parseActivityDateLocal isoFmt a = some d) :
    startD ≤ d ∧ d ≤ endD := by
  unfold fetchActivitiesInRangeViaPaging at hres
  by_cases hps : pageSize ≤ 0 ∨ 200 < pageSize
  · rw [if_pos hps] at hres
    exact absurd hres (by simp)
  · rw [if_neg hps] at hres
    simp only [hs, he, Except.ok.injEq] at hres
    subst hres
    exact fetchLoop_inv startD endD isoFmt pageSize maxPages pages 0 []
      (by intro y hy; exact absurd hy (List.not_mem_nil y)) a ha d hd

/-- C1 witness: a one-page provider response dated 2025-06-15 inside the
June 2025 range. -/
theorem fetchRange_result_within_range_witness :
    (739403 : ℤ) ≤ 739417 ∧ (739417 : ℤ) ≤ 739432 :=
  fetchRange_result_within_range isoFmtFailing [[recJun15]] "2025-06-01"
    "2025-06-30" 50 none 739403 739432 rfl rfl (by decide) [recJun15] rfl
    recJun15 (List.mem_singleton.mpr rfl) 739417 rfl

/-- Page processing splits along list append: if the prefix does not stop
the fetch, processing continues on the suffix with the prefix's
accumulator. -/
theorem processBatch_append (sD eD : ℤ) (isoFmt : String → Option ℤ)
    (xs ys : List Dict) :
    ∀ c, processBatch sD eD isoFmt c (xs ++ ys) =
      (if (processBatch sD eD isoFmt c xs).2
       then processBatch sD eD isoFmt c xs
       else processBatch sD eD isoFmt (processBatch sD eD isoFmt c xs).1 ys) := by
  induction xs with
  | nil => intro c; simp [processBatch]
  | cons act rest ih =>
      intro c
      simp only [List.cons_append, processBatch]
      cases hpd : parseActivityDateLocal isoFmt act with
      | none => simpa using ih (c ++ [act])
      | some d0 =>
          by_cases h1 : eD < d0
          · simp only [if_pos h1]
            exact ih c
          · simp only [if_neg h1]
            by_cases h2 : d0 < sD
            · simp only [if_pos h2]
              simp
            · simp only [if_neg h2]
              exact ih (c ++ [act])

/-- C5: whenever the paging loop reaches a record whose extracted local
date is before `startDate` (and nothing earlier in that page stopped the
fetch), it returns immediately: the result is exactly the records
collected before that record, that record is excluded, and exactly one
provider call was made — no further page and no later record of the same
page is consumed, whatever they contain. -/
theorem fetchLoop_early_return
    (startD endD : ℤ) (isoFmt : String → Option ℤ) (pageSize : ℤ)
    (maxPages : Option ℕ) (pagesDone : ℕ)
    (collected pre post : List Dict) (rest : List (List Dict))
    (bad : Dict) (d : ℤ)
    (hd : parseActivityDateLocal isoFmt bad = some d)
    (hlt : d < startD) (hrange : startD ≤ endD)
    (hpre : (processBatch startD endD isoFmt collected pre).2 = false) :
    fetchLoop startD endD isoFmt pageSize maxPages pagesDone collected
        ((pre ++ bad :: post) :: rest)
      = ((processBatch startD endD isoFmt collected pre).1, 1) := by
  have hne : (pre ++ bad :: post).isEmpty = false := by cases pre <;> rfl
  have hnotnew : ¬ (endD < d) := not_lt.mpr (le_of_lt (lt_of_lt_of_le hlt hrange))
  have hpb : processBatch startD endD isoFmt collected (pre ++ bad :: post)
      = ((processBatch startD endD isoFmt collected pre).1, true) := by
    rw [processBatch_append, hpre]
    simp only [Bool.false_eq_true, if_false, processBatch, hd, if_neg hnotnew,
      if_pos hlt]
  simp only [fetchLoop, hne, Bool.false_eq_true, if_false, hpb]

/-- C5 witness: a page holding an in-range record followed by a too-old
record and further data; the fetch returns just the in-range record after
a single provider call, ignoring the rest of the page and a further page. -/
theorem fetchLoop_early_return_witness :
    fetchLoop 739403 739432 isoFmtFailing 50 none 0 []
        (([recJun15] ++ recMay20 :: [recGoodId]) :: [[recNoId]])
      = ([recJun15], 1) :=
  (fetchLoop_early_return 739403 739432 isoFmtFailing 50 none 0 [] [recJun15]
      [recGoodId] [[recNoId]] recMay20 739391 rfl (by decide) (by decide)
      rfl).trans (by rfl)

/-- C4 (amended): local-date extraction tries the local-timestamp string
field with the two fixed patterns on its first 19 characters, then general
ISO-8601 parsing; if the field holds a string and all three fail the result
is absent — the numeric epoch-milliseconds route (interpreted as UTC) is
used only when the string field is absent or not a string.  All failures
yield absent (`none`); nothing propagates. -/
theorem local_date_extraction_amended (isoFmt : String → Option ℤ)
    (a : Dict) :
    parseActivityDateLocal isoFmt a = localDateSpecAmended isoFmt a := by
  unfold parseActivityDateLocal localDateSpecAmended localDateNumericRoute
  cases hstl : pget a "startTimeLocal" with
  | none => rfl
  | some v =>
      cases v with
      | str stl =>
          cases h1 : strptimeDTOrd sepSpace (take19 stl) with
          | some o => simp [firstSome, h1]
          | none =>
              cases h2 : strptimeDTOrd sepT (take19 stl) with
              | some o => simp [firstSome, h1, h2]
              | none => cases h3 : isoFmt stl <;> simp [firstSome, h1, h2, h3]
      | int n => rfl
      | float q => rfl
      | bool b => rfl
      | dict l => rfl

/-- C4 counterexample: with an unparseable `startTimeLocal` string and a
valid epoch timestamp present, the code yields absent while the claimed
fallback would yield 1970-01-01 (ordinal 719163). -/
theorem local_date_numeric_fallback_cex :
    parseActivityDateLocal isoFmtFailing recC4 = none
    ∧ localDateClaimC4 isoFmtFailing recC4 = some 719163
    ∧ some (719163 : ℤ) ≠ (none : Option ℤ) :=
  ⟨rfl, rfl, by decide⟩

/-- The auth manager performs no page requests. -/
theorem initApi_no_page (env : AuthEnv) : NetEvent.page ∉ (initApi env).2 := by
  obtain ⟨c, ex, r, l, p⟩ := env
  cases c <;> cases ex <;> cases r <;> cases l <;> cases p <;> decide

/-- C7: `init_api` fails exactly when the cached-session restore did not
succeed and the fresh login fails; the error is then the `RuntimeError`
wrapping the login failure.  Restore failures (I/O, parse,
provider-rejected session) degrade to fresh login, and the outcome of
persisting the new session never affects the result. -/
theorem initApi_fails_iff_fresh_login_fails (env : AuthEnv) :
    (errCause (initApi env).1 =
      (if restoreSucceeds env = false ∧ env.login ≠ .ok
       then some (PyErr.authRuntimeError env.login) else none))
    ∧ ∀ p, (initApi { env with persist := p }).1 = (initApi env).1 := by
  obtain ⟨c, ex, r, l, p⟩ := env
  cases c <;> cases ex <;> cases r <;> cases l <;> cases p <;>
    exact ⟨by decide, fun p2 => by cases p2 <;> rfl⟩

/-- C7 witness: a failed connection during fresh login (no session file
configured) surfaces as the wrapping runtime error. -/
theorem initApi_fails_iff_fresh_login_fails_witness :
    errCause (initApi envLoginConn).1
      = some (PyErr.authRuntimeError LoginOutcome.connError) :=
  ((initApi_fails_iff_fresh_login_fails envLoginConn).1).trans
    (if_pos ⟨rfl, by decide⟩)

/-- C6 (amended): an invalid range (`start > end`) is rejected before any
network interaction (empty event trace); a `pageSize` outside `(0, 200]`
always makes the operation fail before any page request — but
authentication may already have happened by the time that validation error
is raised. -/
theorem validation_order_amended (env : AuthEnv) (isoFmt : String → Option ℤ)
    (pages : List (List Dict)) (startDate endDate : DateLike)
    (activityType : Option ActivityTypeArg) (pageSize : ℤ)
    (maxPages : Option ℕ) :
    (∀ s e, toIso startDate = .ok s → toIso endDate = .ok e →
      pyStrLt e s = true →
      getActivitiesInRange env isoFmt pages startDate endDate activityType
          pageSize maxPages
        = (.error (.valueError "Invalid range: start_date is after end_date."),
           []))
    ∧ ((pageSize ≤ 0 ∨ 200 < pageSize) →
      exceptIsOk (getActivitiesInRange env isoFmt pages startDate endDate
          activityType pageSize maxPages).1 = false
      ∧ NetEvent.page ∉ (getActivitiesInRange env isoFmt pages startDate
          endDate activityType pageSize maxPages).2) := by
  constructor
  · intro s e hs he hlt
    unfold getActivitiesInRange validateRange
    simp only [hs, he, hlt, if_true]
  · intro hbad
    unfold getActivitiesInRange
    cases hval : validateRange startDate endDate with
    | error er =>
        simp only [hval]
        exact ⟨rfl, by simp⟩
    | ok se =>
        obtain ⟨s, e⟩ := se
        simp only [hval]
        rcases hi : initApi env with ⟨ires, evs⟩
        have hnp : NetEvent.page ∉ evs := by
          have h0 := initApi_no_page env
          rw [hi] at h0
          exact h0
        cases ires with
        | error er =>
            simp only [hi]
            exact ⟨rfl, hnp⟩
        | ok h =>
            simp only [hi]
            have hf : fetchActivitiesInRangeViaPaging isoFmt pages s e
                pageSize maxPages
                = (.error (.valueError "page_size must be between 1 and 200"), 0) := by
              unfold fetchActivitiesInRangeViaPaging
              rw [if_pos hbad]
            simp only [hf]
            refine ⟨rfl, ?_⟩
            simpa using hnp

/-- C6 witness: the invalid-range rejection with empty trace, and the
failure on `pageSize = 0`. -/
theorem validation_order_amended_witness :
    (getActivitiesInRange envOk isoFmtFailing [] (.dstr "2025-06-02")
        (.dstr "2025-06-01") none 50 none
      = (.error (.valueError "Invalid range: start_date is after end_date."),
         []))
    ∧ exceptIsOk (getActivitiesInRange envOk isoFmtFailing []
        (.dstr "2025-06-01") (.dstr "2025-06-30") none 0 none).1 = false :=
  ⟨(validation_order_amended envOk isoFmtFailing [] (.dstr "2025-06-02")
      (.dstr "2025-06-01") none 50 none).1 "2025-06-02" "2025-06-01" rfl rfl
      rfl,
   ((validation_order_amended envOk isoFmtFailing [] (.dstr "2025-06-01")
      (.dstr "2025-06-30") none 0 none).2 (Or.inl (by decide))).1⟩

/-- C6 counterexample: with a valid range and `pageSize = 0`, the claim
demands the validation error before any network call; the code raises it
only after authentication — the event trace already holds a login. -/
theorem page_size_error_after_auth_cex :
    getActivitiesInRange envOk isoFmtFailing [] (.dstr "2025-06-01")
        (.dstr "2025-06-30") none 0 none
      = (.error (.valueError "page_size must be between 1 and 200"),
         [NetEvent.auth])
    ∧ ([NetEvent.auth] : List NetEvent) ≠ [] :=
  ⟨rfl, by decide⟩

/-- One failing record makes the whole classification comprehension fail. -/
theorem classifyAll_error_of_mem (l : List Dict) (r : Dict) (er : PyErr)
    (hr : r ∈ l) (hbad : parseActivitySummary r = .error er) :
    exceptIsOk (classifyAll l) = false := by
  induction l with
  | nil => exact absurd hr (List.not_mem_nil r)
  | cons a rest ih =>
      rcases List.mem_cons.mp hr with h | h
      · subst h
        simp [classifyAll, hbad, exceptIsOk]
      · simp only [classifyAll]
        cases hpa : parseActivitySummary a with
        | error e => rfl
        | ok v =>
            have hrest := ih h
            cases hca : classifyAll rest with
            | error e2 => rfl
            | ok vs =>
                rw [hca] at hrest
                exact absurd hrest (by simp [exceptIsOk])

/-- C3 (amended): a record whose `activity_id` is missing or non-coercible
makes the classification of the whole batch fail: `get_activities_in_range`
propagates that record's error and returns no records at all
(all-or-nothing), instead of reporting a per-record error alongside the
successfully classified records. -/
theorem bad_activity_id_aborts_batch (env : AuthEnv)
    (isoFmt : String → Option ℤ) (pages : List (List Dict))
    (startDate endDate : DateLike) (pageSize : ℤ) (maxPages : Option ℕ)
    (s e : String) (raws : List Dict) (r : Dict) (er : PyErr)
    (hval : validateRange startDate endDate = .ok (s, e))
    (hauth : exceptIsOk (initApi env).1 = true)
    (hfetch : (fetchActivitiesInRangeViaPaging isoFmt pages s e pageSize
        maxPages).1 = .ok raws)
    (hr : r ∈ raws)
    (hbad : parseActivitySummary r = .error er) :
    exceptIsOk (getActivitiesInRange env isoFmt pages startDate endDate none
        pageSize maxPages).1 = false := by
  unfold getActivitiesInRange
  simp only [hval]
  rcases hi : initApi env with ⟨ires, evs⟩
  cases ires with
  | error e2 =>
      rw [hi] at hauth
      exact absurd hauth (by simp [exceptIsOk])
  | ok h =>
      simp only [hi]
      rcases hf : fetchActivitiesInRangeViaPaging isoFmt pages s e pageSize
        maxPages with ⟨fres, n⟩
      rw [hf] at hfetch
      cases fres with
      | error e3 => exact absurd hfetch (by simp)
      | ok raws2 =>
          have hr2 : raws2 = raws := by simpa using hfetch
          subst hr2
          simp only [hf]
          cases hca : classifyAll raws2 with
          | error e4 => simp [exceptIsOk]
          | ok out =>
              have hfail := classifyAll_error_of_mem raws2 r er hr hbad
              rw [hca] at hfail
              exact absurd hfail (by simp [exceptIsOk])

/-- C3 witness: a batch with one good and one id-less record makes the
whole public operation fail. -/
theorem bad_activity_id_aborts_batch_witness :
    exceptIsOk (getActivitiesInRange envOk isoFmtFailing
        [[recGoodId, recNoId]] (.dstr "2025-06-01") (.dstr "2025-06-30") none
        50 none).1 = false :=
  bad_activity_id_aborts_batch envOk isoFmtFailing [[recGoodId, recNoId]]
    (.dstr "2025-06-01") (.dstr "2025-06-30") 50 none "2025-06-01"
    "2025-06-30" [recGoodId, recNoId] recNoId
    (.typeError "int() argument must be a string or a real number, not NoneType")
    rfl rfl rfl (by simp) rfl

/-- C3 counterexample: in a batch of two records where only the second
lacks `activityId`, the operation returns a single global error and no
records, although the first record on its own classifies fine — there is
no partial success and no per-record error reporting. -/
theorem batch_partial_success_cex :
    (getActivitiesInRange envOk isoFmtFailing [[recGoodId, recNoId]]
        (.dstr "2025-06-01") (.dstr "2025-06-30") none 50 none).1
      = .error (.typeError
          "int() argument must be a string or a real number, not NoneType")
    ∧ exceptIsOk (parseActivitySummary recGoodId) = true :=
  ⟨rfl, rfl⟩

end GarminClient
